import Mathlib

/-!
Shallow embedding of the FastAPI student-management service (`src/main.py`).

The service exposes CRUD endpoints over a single SQLAlchemy table
`estudiantes` with columns `id` (integer primary key, autoincrement),
`nombre` (nullable string) and `edad` (nullable integer).  Request bodies
are validated against the pydantic model `EstudianteSchema` (`nombre : str`,
`edad : int`).  Each request obtains a fresh scoped session (`get_db`);
handlers stage changes on the session and `commit` them, calling
`rollback` and answering 500 when the commit raises, re-raising
`HTTPException` (404) unchanged.

The embedding models the committed table as a list of rows plus the
autoincrement counter, and a session as the committed state plus a list
of pending operations.  The commit raises either on an unexpected
storage error — a boolean `fault` flag — or deterministically when a
staged write violates the `VARCHAR(100)` bound of the `nombre` column.
Body validation follows pydantic lax mode, which coerces numeric strings
to integers.
-/

namespace GestionEstudiantes

/-- JSON values, used for request and response bodies. -/
inductive Json where
  | null : Json
  | str (s : String) : Json
  | int (n : Int) : Json
  | obj (fields : List (String × Json)) : Json
  | arr (items : List Json) : Json

/-- Look up a top-level key of a JSON object. -/
def Json.lookup : Json → String → Option Json
  | .obj fields, k => fields.lookup k
  | _, _ => none

/-- The field names of a JSON object, in order; `[]` for non-objects. -/
def Json.keys : Json → List String
  | .obj fields => fields.map Prod.fst
  | _ => []

/-- The string value of a top-level field, when it is a string. -/
def Json.getStr (j : Json) (k : String) : Option String :=
  match j.lookup k with
  | some (.str s) => some s
  | _ => none

/-- The integer value of a top-level field, when it is an integer. -/
def Json.getInt (j : Json) (k : String) : Option Int :=
  match j.lookup k with
  | some (.int n) => some n
  | _ => none

/-- Embed a nullable string column value into JSON. -/
def Json.ofOptStr : Option String → Json
  | some s => .str s
  | none => .null

/-- Embed a nullable integer column value into JSON. -/
def Json.ofOptInt : Option Int → Json
  | some n => .int n
  | none => .null

/-- An HTTP response: status code and JSON body. -/
structure HttpResponse where
  status : Nat
  body : Json

/-- A row of the `estudiantes` table (`class Estudiante`, main.py lines
45-49).  `nombre` and `edad` are nullable columns, hence `Option`; `id` is
the primary key.  `nombre` is declared `Column(String(100))`: values
longer than 100 characters never reach a committed row because the
storage engine rejects the write at commit time (`PendingOp.oversized`,
`Session.commitRaises` below). -/
structure Estudiante where
  id : Int
  nombre : Option String
  edad : Option Int
deriving DecidableEq, Repr

/-- The committed state of the `estudiantes` table together with the value
the autoincrement sequence will assign next. -/
structure DB where
  rows : List Estudiante
  nextId : Int
deriving DecidableEq, Repr

/-- The guarantees of the storage engine for the primary-key column: every
assigned id is below the sequence value, and ids are pairwise distinct. -/
def DB.WellFormed (db : DB) : Prop :=
  (∀ r ∈ db.rows, r.id < db.nextId) ∧ (db.rows.map Estudiante.id).Nodup

/-- `db.query(Estudiante).filter(Estudiante.id == id).first()`. -/
def findRow (db : DB) (id : Int) : Option Estudiante :=
  db.rows.find? (fun r => r.id == id)

/-- An operation staged on a session and executed at commit:
`db.add` of a new row, attribute assignment on a fetched row, or
`db.delete` of a fetched row. -/
inductive PendingOp where
  | insert (nombre : String) (edad : Int) : PendingOp
  | update (id : Int) (nombre : String) (edad : Int) : PendingOp
  | delete (id : Int) : PendingOp
deriving DecidableEq, Repr

/-- Execute one staged operation against the committed table. -/
def DB.applyOp (db : DB) : PendingOp → DB
  | .insert nombre edad =>
      ⟨db.rows ++ [⟨db.nextId, some nombre, some edad⟩], db.nextId + 1⟩
  | .update id nombre edad =>
      ⟨db.rows.map (fun r =>
          if r.id = id then ⟨r.id, some nombre, some edad⟩ else r),
        db.nextId⟩
  | .delete id =>
      ⟨db.rows.filter (fun r => r.id != id), db.nextId⟩

/-- Whether a staged operation violates the `VARCHAR(100)` bound of the
`nombre` column (main.py line 48): committing such an operation makes the
PostgreSQL backend raise, like any other storage error. -/
def PendingOp.oversized : PendingOp → Bool
  | .insert nombre _ => decide (100 < nombre.length)
  | .update _ nombre _ => decide (100 < nombre.length)
  | .delete _ => false

/-- A scoped SQLAlchemy session: the committed state it reads from plus
the staged, not yet committed, operations. -/
structure Session where
  committed : DB
  pending : List PendingOp
deriving DecidableEq, Repr

/-- Stage an operation on the session. -/
def Session.addOp (s : Session) (op : PendingOp) : Session :=
  ⟨s.committed, s.pending ++ [op]⟩

/-- `db.commit()`: atomically apply the staged operations. -/
def Session.commit (s : Session) : Session :=
  ⟨s.pending.foldl DB.applyOp s.committed, []⟩

/-- Whether `db.commit()` raises instead of committing: either an
unexpected storage error (`fault`, e.g. lost connectivity) or a
deterministic constraint violation — a staged write whose `nombre`
exceeds the `VARCHAR(100)` column bound. -/
def Session.commitRaises (s : Session) (fault : Bool) : Bool :=
  fault || s.pending.any PendingOp.oversized

/-- `db.rollback()`: discard the staged operations, leaving the committed
state untouched. -/
def Session.rollback (s : Session) : Session :=
  ⟨s.committed, []⟩

/-- `get_db` (main.py lines 90-95): each request gets a fresh session with
nothing staged. -/
def freshSession (db : DB) : Session :=
  ⟨db, []⟩

/-- The pydantic model `EstudianteSchema` (main.py lines 59-61): a
validated request body. -/
structure EstudianteSchema where
  nombre : String
  edad : Int
deriving DecidableEq, Repr

/-- The digit value of a decimal digit character. -/
def digitVal (c : Char) : Nat := c.toNat - 48

/-- Parse a non-empty all-digit character list as a natural number. -/
def parseDigits : List Char → Option Nat
  | [] => none
  | ds =>
    if ds.all Char.isDigit then
      some (ds.foldl (fun n c => n * 10 + digitVal c) 0)
    else none

/-- Parse a string as an optionally `-`-signed decimal integer literal:
the strings that pydantic lax mode coerces to `int` (Python `int(str)`
semantics on plain decimal literals). -/
def parseIntLit (s : String) : Option Int :=
  match s.data with
  | [] => none
  | c :: cs =>
    if c = '-' then (parseDigits cs).map (fun n => -(n : Int))
    else (parseDigits (c :: cs)).map (fun n => (n : Int))

/-- Pydantic lax-mode coercion of a JSON value to `int`: JSON integers
are accepted as they are, and JSON strings holding a decimal integer
literal are coerced (so `"20"` becomes `20`); everything else fails. -/
def coerceInt : Json → Option Int
  | .int n => some n
  | .str s => parseIntLit s
  | _ => none

/-- FastAPI/pydantic validation of a request body against
`EstudianteSchema` in the default lax mode: `nombre` must be present and
a string; `edad` must be present and coercible to an integer (a JSON
integer, or a numeric string, which pydantic coerces); extra fields are
ignored.  `none` means FastAPI answers 422 without calling the
handler. -/
def validateBody (body : Json) : Option EstudianteSchema :=
  match body.lookup "nombre", (body.lookup "edad").bind coerceInt with
  | some (.str n), some e => some ⟨n, e⟩
  | _, _ => none

/-- The 404 response produced by `HTTPException(status_code=404,
detail="Estudiante no encontrado")`. -/
def notFoundResponse : HttpResponse :=
  ⟨404, .obj [("detail", .str "Estudiante no encontrado")]⟩

/-- The 422 response FastAPI produces when body validation fails (the
`detail` list of validation errors is not modelled further). -/
def validationErrorResponse : HttpResponse :=
  ⟨422, .obj [("detail", .arr [])]⟩

/-- A 500 response produced by `HTTPException(status_code=500, ...)`. -/
def storageErrorResponse (msg : String) : HttpResponse :=
  ⟨500, .obj [("detail", .str msg)]⟩

/-- `root` (main.py lines 98-105): the `GET /` handler. -/
def root : HttpResponse :=
  ⟨200, .obj [
    ("message", .str "API de Estudiantes funcionando correctamente en puerto 8000"),
    ("status", .str "healthy"),
    ("version", .str "1.0.0"),
    ("puerto", .int 8000)]⟩

/-- `health_check` (main.py lines 107-113): the `GET /health` handler. -/
def health_check : HttpResponse :=
  ⟨200, .obj [
    ("status", .str "healthy"),
    ("puerto", .int 8000),
    ("database", .str "connected")]⟩

/-- `get_estudiantes` (main.py lines 117-132): the `GET /estudiantes/`
handler; reads only, so the table is returned unchanged. -/
def get_estudiantes (db : DB) : HttpResponse × DB :=
  (⟨200, .obj [
      ("data", .arr (db.rows.map (fun est => .obj [
        ("id", .int est.id),
        ("nombre", .ofOptStr est.nombre),
        ("edad", .ofOptInt est.edad)]))),
      ("count", .int db.rows.length),
      ("mensaje", .str "Estudiantes obtenidos exitosamente")]⟩, db)

/-- `get_estudiante` (main.py lines 134-152): the `GET /estudiantes/{id}`
handler.  A missing row raises `HTTPException(404)`, which the
`except HTTPException: raise` branch re-raises unchanged. -/
def get_estudiante (id : Int) (db : DB) : HttpResponse × DB :=
  match findRow db id with
  | none => (notFoundResponse, db)
  | some est =>
      (⟨200, .obj [
        ("id", .int est.id),
        ("nombre", .ofOptStr est.nombre),
        ("edad", .ofOptInt est.edad),
        ("mensaje", .str "Estudiante encontrado exitosamente")]⟩, db)

/-- `crear_estudiante` (main.py lines 154-174): the `POST /estudiantes/`
handler body, after validation.  It stages the insert and commits; when
the commit raises (unexpected storage error `fault`, or a `nombre` over
the `VARCHAR(100)` bound) the `except` branch calls `db.rollback()` and
raises 500. -/
def crear_estudiante (est : EstudianteSchema) (db : DB) (fault : Bool) :
    HttpResponse × DB :=
  let s := (freshSession db).addOp (.insert est.nombre est.edad)
  if s.commitRaises fault then
    (storageErrorResponse "Error al crear estudiante", s.rollback.committed)
  else
    let s2 := s.commit
    (⟨200, .obj [
      ("mensaje", .str "Estudiante creado exitosamente."),
      ("estudiante", .obj [
        ("id", .int db.nextId),
        ("nombre", .str est.nombre),
        ("edad", .int est.edad)])]⟩, s2.committed)

/-- `modificar_estudiante` (main.py lines 176-199): the
`PUT /estudiantes/{id}` handler body, after validation.  A missing row
raises 404 before anything is staged; otherwise the attribute assignments
are staged and committed, with rollback and 500 when the commit raises
(unexpected storage error, or a `nombre` over the `VARCHAR(100)`
bound). -/
def modificar_estudiante (id : Int) (est : EstudianteSchema) (db : DB)
    (fault : Bool) : HttpResponse × DB :=
  match findRow db id with
  | none => (notFoundResponse, db)
  | some _ =>
      let s := (freshSession db).addOp (.update id est.nombre est.edad)
      if s.commitRaises fault then
        (storageErrorResponse "Error al actualizar estudiante",
          s.rollback.committed)
      else
        let s2 := s.commit
        (⟨200, .obj [
          ("mensaje", .str "Estudiante actualizado exitosamente"),
          ("data", .obj [
            ("id", .int id),
            ("nombre", .str est.nombre),
            ("edad", .int est.edad)])]⟩, s2.committed)

/-- `eliminar_estudiante` (main.py lines 201-219): the
`DELETE /estudiantes/{id}` handler.  A missing row raises 404; otherwise
`db.delete(est)` is staged and committed, with rollback and 500 on an
unexpected storage error. -/
def eliminar_estudiante (id : Int) (db : DB) (fault : Bool) :
    HttpResponse × DB :=
  match findRow db id with
  | none => (notFoundResponse, db)
  | some _ =>
      let s := (freshSession db).addOp (.delete id)
      if s.commitRaises fault then
        (storageErrorResponse "Error al eliminar estudiante",
          s.rollback.committed)
      else
        let s2 := s.commit
        (⟨200, .obj [("mensaje", .str "Estudiante eliminado exitosamente")]⟩,
          s2.committed)

/-- `POST /estudiantes/` as seen by a client: FastAPI validates the body
against `EstudianteSchema` and answers 422 without touching the table when
validation fails; otherwise the handler runs. -/
def postEstudiantes (body : Json) (db : DB) (fault : Bool) :
    HttpResponse × DB :=
  match validateBody body with
  | none => (validationErrorResponse, db)
  | some est => crear_estudiante est db fault

/-- `PUT /estudiantes/{id}` as seen by a client: validation first, then
the handler. -/
def putEstudiante (id : Int) (body : Json) (db : DB) (fault : Bool) :
    HttpResponse × DB :=
  match validateBody body with
  | none => (validationErrorResponse, db)
  | some est => modificar_estudiante id est db fault

/-- Table states reachable from the empty table through the mutating API
operations (the read-only endpoints never change the table). -/
inductive Reachable : DB → Prop where
  | empty : Reachable ⟨[], 1⟩
  | post (body : Json) (fault : Bool) {db : DB} :
      Reachable db → Reachable (postEstudiantes body db fault).2
  | put (id : Int) (body : Json) (fault : Bool) {db : DB} :
      Reachable db → Reachable (putEstudiante id body db fault).2
  | del (id : Int) (fault : Bool) {db : DB} :
      Reachable db → Reachable (eliminar_estudiante id db fault).2

/-! ## Helper lemmas -/

/-- `find?` skips a prefix on which the predicate is everywhere false. -/
lemma find?_append_left_none {α : Type} {p : α → Bool} {l₁ l₂ : List α}
    (h : l₁.find? p = none) : (l₁ ++ l₂).find? p = l₂.find? p := by
  rw [List.find?_append, h, Option.none_or]

/-! ## Claim theorems -/

/-- Claim C5: for every id with no matching row in the `estudiantes`
table, `GET /estudiantes/{id}` returns status 404. -/
theorem get_missing_id_404 (id : Int) (db : DB)
    (h : findRow db id = none) :
    (get_estudiante id db).1.status = 404 := by
  simp [get_estudiante, h, notFoundResponse]

/-- Witness for C5 at a concrete table that has a row with id 1 but none
with id 5. -/
theorem get_missing_id_404_witness :
    findRow ⟨[⟨1, some "Ana", some 20⟩], 2⟩ 5 = none ∧
    (get_estudiante 5 ⟨[⟨1, some "Ana", some 20⟩], 2⟩).1.status = 404 :=
  ⟨by decide, get_missing_id_404 5 ⟨[⟨1, some "Ana", some 20⟩], 2⟩ (by decide)⟩

/-- Claim C4: `PUT /estudiantes/{id}` with a valid body on an id with no
matching row returns 404 and leaves the table unchanged — in particular it
creates no row. -/
theorem put_missing_id_404 (id : Int) (body : Json) (db : DB) (fault : Bool)
    (hv : (validateBody body).isSome) (h : findRow db id = none) :
    (putEstudiante id body db fault).1.status = 404 ∧
    (putEstudiante id body db fault).2 = db := by
  obtain ⟨est, hest⟩ := Option.isSome_iff_exists.mp hv
  constructor <;>
    simp [putEstudiante, hest, modificar_estudiante, h, notFoundResponse]

/-- Witness for C4 at a concrete table and the absent id 7. -/
theorem put_missing_id_404_witness :
    (validateBody
        (Json.obj [("nombre", Json.str "Ana"), ("edad", Json.int 20)])).isSome ∧
    findRow ⟨[⟨1, some "Beto", some 30⟩], 2⟩ 7 = none ∧
    (putEstudiante 7 (Json.obj [("nombre", Json.str "Ana"), ("edad", Json.int 20)])
        ⟨[⟨1, some "Beto", some 30⟩], 2⟩ false).1.status = 404 ∧
    (putEstudiante 7 (Json.obj [("nombre", Json.str "Ana"), ("edad", Json.int 20)])
        ⟨[⟨1, some "Beto", some 30⟩], 2⟩ false).2 = ⟨[⟨1, some "Beto", some 30⟩], 2⟩ :=
  ⟨rfl, by decide,
    put_missing_id_404 7
      (Json.obj [("nombre", Json.str "Ana"), ("edad", Json.int 20)])
      ⟨[⟨1, some "Beto", some 30⟩], 2⟩ false rfl (by decide)⟩

/-- Claim C2: when the commit raises an unexpected storage error, each
mutating handler (create, update, delete) rolls the transaction back and
answers 500, so the committed table equals its state before the call.
Create reaches the commit on every table, the empty one included; update
and delete reach it exactly when the id matches a row (otherwise they
answer 404 before touching storage). -/
theorem mutating_fault_rolls_back (est : EstudianteSchema) (id : Int)
    (db : DB) :
    ((crear_estudiante est db true).1.status = 500 ∧
      (crear_estudiante est db true).2 = db) ∧
    ((findRow db id).isSome →
      ((modificar_estudiante id est db true).1.status = 500 ∧
        (modificar_estudiante id est db true).2 = db) ∧
      ((eliminar_estudiante id db true).1.status = 500 ∧
        (eliminar_estudiante id db true).2 = db)) := by
  refine ⟨?_, ?_⟩
  · constructor <;>
      simp [crear_estudiante, Session.commitRaises, Session.rollback,
        Session.addOp, freshSession, storageErrorResponse]
  · intro h
    obtain ⟨r, hr⟩ := Option.isSome_iff_exists.mp h
    refine ⟨?_, ?_⟩ <;>
      constructor <;>
        simp [modificar_estudiante, eliminar_estudiante, hr,
          Session.commitRaises, Session.rollback, Session.addOp,
          freshSession, storageErrorResponse]

/-- Witness for C2: a faulting create on the empty table, and a faulting
update and delete on a one-row table. -/
theorem mutating_fault_rolls_back_witness :
    ((crear_estudiante ⟨"Luis", 22⟩ ⟨[], 1⟩ true).1.status = 500 ∧
      (crear_estudiante ⟨"Luis", 22⟩ ⟨[], 1⟩ true).2 = ⟨[], 1⟩) ∧
    (findRow ⟨[⟨1, some "Ana", some 20⟩], 2⟩ 1).isSome ∧
    ((modificar_estudiante 1 ⟨"Luis", 22⟩ ⟨[⟨1, some "Ana", some 20⟩], 2⟩ true).1.status = 500 ∧
      (modificar_estudiante 1 ⟨"Luis", 22⟩ ⟨[⟨1, some "Ana", some 20⟩], 2⟩ true).2 =
        ⟨[⟨1, some "Ana", some 20⟩], 2⟩) ∧
    ((eliminar_estudiante 1 ⟨[⟨1, some "Ana", some 20⟩], 2⟩ true).1.status = 500 ∧
      (eliminar_estudiante 1 ⟨[⟨1, some "Ana", some 20⟩], 2⟩ true).2 =
        ⟨[⟨1, some "Ana", some 20⟩], 2⟩) :=
  ⟨(mutating_fault_rolls_back ⟨"Luis", 22⟩ 1 ⟨[], 1⟩).1,
    by decide,
    (mutating_fault_rolls_back ⟨"Luis", 22⟩ 1
      ⟨[⟨1, some "Ana", some 20⟩], 2⟩).2 (by decide)⟩

/-- Claim C10: in the GET-by-id, PUT and DELETE handlers the
`except HTTPException: raise` branch re-raises the 404 unchanged, so the
result is 404 exactly when the id has no matching row — a commit fault
turns into 500 only on ids that do match. -/
theorem status_404_iff_missing (id : Int) (est : EstudianteSchema) (db : DB)
    (fault : Bool) :
    ((get_estudiante id db).1.status = 404 ↔ findRow db id = none) ∧
    ((modificar_estudiante id est db fault).1.status = 404 ↔
      findRow db id = none) ∧
    ((eliminar_estudiante id db fault).1.status = 404 ↔
      findRow db id = none) := by
  cases h : findRow db id with
  | none =>
    simp [get_estudiante, modificar_estudiante, eliminar_estudiante, h,
      notFoundResponse]
  | some r =>
    refine ⟨by simp [get_estudiante, h], ?_, ?_⟩
    · cases hcr : ((freshSession db).addOp
          (.update id est.nombre est.edad)).commitRaises fault <;>
        simp [modificar_estudiante, h, hcr, storageErrorResponse]
    · cases hcr : ((freshSession db).addOp (.delete id)).commitRaises fault <;>
        simp [eliminar_estudiante, h, hcr, storageErrorResponse]

/-- Claim C9 counterexample: the `GET /` body has a field `puerto` beyond
`message`/`status`/`version`, and the `GET /health` body has fields
`puerto` and `database` beyond `status`, so the claimed exact field lists
are wrong. -/
theorem root_health_exact_fields_false :
    Json.keys root.body ≠ ["message", "status", "version"] ∧
    "puerto" ∈ Json.keys root.body ∧
    "puerto" ∉ (["message", "status", "version"] : List String) ∧
    Json.keys health_check.body ≠ ["status"] ∧
    "puerto" ∈ Json.keys health_check.body ∧
    "database" ∈ Json.keys health_check.body ∧
    "puerto" ≠ "status" := by
  refine ⟨?_, ?_, ?_, ?_, ?_, ?_, ?_⟩ <;> decide

/-- Claim C9 as amended: `GET /` returns 200 with body fields `message`,
`status`, `version` and `puerto`; `GET /health` returns 200 with body
fields `status`, `puerto` and `database`. -/
theorem root_health_fields :
    root.status = 200 ∧
    Json.keys root.body = ["message", "status", "version", "puerto"] ∧
    health_check.status = 200 ∧
    Json.keys health_check.body = ["status", "puerto", "database"] := by
  refine ⟨rfl, ?_, rfl, ?_⟩ <;> decide

/-- Claim C1: POST of a valid `(nombre, edad)` body followed by GET of the
id returned in the POST response yields status 200 with the same `nombre`
and `edad`.  Validity of the pair includes the `VARCHAR(100)` bound on
`nombre` (spec data model: name has bounded length 100); an oversized
name makes the commit raise 500 and no id is returned. -/
theorem post_then_get_round_trip (nombre : String) (edad : Int) (db : DB)
    (h : db.WellFormed) (hlen : nombre.length ≤ 100) :
    ∃ (newId : Int) (resp1 : HttpResponse) (db1 : DB),
      postEstudiantes
          (Json.obj [("nombre", Json.str nombre), ("edad", Json.int edad)])
          db false = (resp1, db1) ∧
      (resp1.body.lookup "estudiante").bind (fun j => j.getInt "id") =
        some newId ∧
      (get_estudiante newId db1).1.status = 200 ∧
      (get_estudiante newId db1).1.body.getStr "nombre" = some nombre ∧
      (get_estudiante newId db1).1.body.getInt "edad" = some edad := by
  have hnoraise : ((freshSession db).addOp
      (.insert nombre edad)).commitRaises false = false := by
    simp [Session.commitRaises, Session.addOp, freshSession,
      PendingOp.oversized]
    omega
  have hpost : postEstudiantes
      (Json.obj [("nombre", Json.str nombre), ("edad", Json.int edad)])
      db false =
      (⟨200, Json.obj [
          ("mensaje", Json.str "Estudiante creado exitosamente."),
          ("estudiante", Json.obj [
            ("id", Json.int db.nextId),
            ("nombre", Json.str nombre),
            ("edad", Json.int edad)])]⟩,
        ⟨db.rows ++ [⟨db.nextId, some nombre, some edad⟩], db.nextId + 1⟩) := by
    show crear_estudiante ⟨nombre, edad⟩ db false = _
    unfold crear_estudiante
    simp only [hnoraise]
    rfl
  have h1 : db.rows.find? (fun r => r.id == db.nextId) = none := by
    rw [List.find?_eq_none]
    intro r hr
    simp only [beq_iff_eq]
    exact ne_of_lt (h.1 r hr)
  have hfind : findRow
      ⟨db.rows ++ [⟨db.nextId, some nombre, some edad⟩], db.nextId + 1⟩
      db.nextId = some ⟨db.nextId, some nombre, some edad⟩ := by
    show (db.rows ++ [(⟨db.nextId, some nombre, some edad⟩ : Estudiante)]).find?
        (fun r => r.id == db.nextId) = some ⟨db.nextId, some nombre, some edad⟩
    rw [find?_append_left_none h1]
    simp [List.find?]
  have hget : get_estudiante db.nextId
      ⟨db.rows ++ [⟨db.nextId, some nombre, some edad⟩], db.nextId + 1⟩ =
      (⟨200, Json.obj [
          ("id", Json.int db.nextId),
          ("nombre", Json.ofOptStr (some nombre)),
          ("edad", Json.ofOptInt (some edad)),
          ("mensaje", Json.str "Estudiante encontrado exitosamente")]⟩,
        ⟨db.rows ++ [⟨db.nextId, some nombre, some edad⟩], db.nextId + 1⟩) := by
    unfold get_estudiante
    rw [hfind]
  refine ⟨db.nextId, _, _, hpost, rfl, ?_, ?_, ?_⟩ <;> rw [hget] <;> rfl

/-- Witness for C1: POST of `("Ana", 20)` into the empty table, then GET. -/
theorem post_then_get_round_trip_witness :
    (⟨[], 1⟩ : DB).WellFormed ∧
    ("Ana" : String).length ≤ 100 ∧
    (∃ (newId : Int) (resp1 : HttpResponse) (db1 : DB),
      postEstudiantes
          (Json.obj [("nombre", Json.str "Ana"), ("edad", Json.int 20)])
          ⟨[], 1⟩ false = (resp1, db1) ∧
      (resp1.body.lookup "estudiante").bind (fun j => j.getInt "id") =
        some newId ∧
      (get_estudiante newId db1).1.status = 200 ∧
      (get_estudiante newId db1).1.body.getStr "nombre" = some "Ana" ∧
      (get_estudiante newId db1).1.body.getInt "edad" = some 20) := by
  have hw : (⟨[], 1⟩ : DB).WellFormed := ⟨by simp, by simp⟩
  exact ⟨hw, by decide, post_then_get_round_trip "Ana" 20 ⟨[], 1⟩ hw (by decide)⟩

/-- Claim C7: a successful PUT on an existing id replaces exactly the
`nombre` and `edad` of the matching row, keeps its `id`, and leaves every
other row (and the autoincrement counter, and the row order) unchanged.
A fault-free PUT is successful exactly when the new `nombre` fits the
`VARCHAR(100)` column (otherwise the commit raises and the PUT is not
successful), so that bound is the precondition of a successful PUT. -/
theorem put_existing_replaces_fields (id : Int) (sch : EstudianteSchema)
    (db : DB) (h : (findRow db id).isSome)
    (hlen : sch.nombre.length ≤ 100) :
    (modificar_estudiante id sch db false).1.status = 200 ∧
    (modificar_estudiante id sch db false).2.nextId = db.nextId ∧
    (modificar_estudiante id sch db false).2.rows.length = db.rows.length ∧
    ∀ (i : Nat) (r0 : Estudiante), db.rows[i]? = some r0 →
      (r0.id = id →
        (modificar_estudiante id sch db false).2.rows[i]? =
          some ⟨r0.id, some sch.nombre, some sch.edad⟩) ∧
      (r0.id ≠ id →
        (modificar_estudiante id sch db false).2.rows[i]? = some r0) := by
  obtain ⟨est, hest⟩ := Option.isSome_iff_exists.mp h
  have hnoraise : ((freshSession db).addOp
      (.update id sch.nombre sch.edad)).commitRaises false = false := by
    simp [Session.commitRaises, Session.addOp, freshSession,
      PendingOp.oversized]
    omega
  have hred : (modificar_estudiante id sch db false).2 =
      ⟨db.rows.map (fun r =>
        if r.id = id then ⟨r.id, some sch.nombre, some sch.edad⟩ else r),
       db.nextId⟩ := by
    unfold modificar_estudiante
    rw [hest]
    simp only [hnoraise]
    rfl
  have hst : (modificar_estudiante id sch db false).1.status = 200 := by
    unfold modificar_estudiante
    rw [hest]
    simp only [hnoraise]
    rfl
  refine ⟨hst, by rw [hred], by rw [hred]; simp, ?_⟩
  intro i r0 hr0
  rw [hred]
  constructor
  · intro hEq
    simp [List.getElem?_map, hr0, hEq]
  · intro hNe
    simp [List.getElem?_map, hr0, hNe]

/-- Witness for C7: update of the row with id 1 in a two-row table. -/
theorem put_existing_replaces_fields_witness :
    (findRow ⟨[⟨1, some "Ana", some 20⟩, ⟨2, some "Luis", some 22⟩], 3⟩ 1).isSome ∧
    ("Ana B" : String).length ≤ 100 ∧
    ((modificar_estudiante 1 ⟨"Ana B", 21⟩
        ⟨[⟨1, some "Ana", some 20⟩, ⟨2, some "Luis", some 22⟩], 3⟩ false).1.status = 200 ∧
      (modificar_estudiante 1 ⟨"Ana B", 21⟩
        ⟨[⟨1, some "Ana", some 20⟩, ⟨2, some "Luis", some 22⟩], 3⟩ false).2.nextId =
        (⟨[⟨1, some "Ana", some 20⟩, ⟨2, some "Luis", some 22⟩], 3⟩ : DB).nextId ∧
      (modificar_estudiante 1 ⟨"Ana B", 21⟩
        ⟨[⟨1, some "Ana", some 20⟩, ⟨2, some "Luis", some 22⟩], 3⟩ false).2.rows.length =
        (⟨[⟨1, some "Ana", some 20⟩, ⟨2, some "Luis", some 22⟩], 3⟩ : DB).rows.length ∧
      ∀ (i : Nat) (r0 : Estudiante),
        (⟨[⟨1, some "Ana", some 20⟩, ⟨2, some "Luis", some 22⟩], 3⟩ : DB).rows[i]? = some r0 →
        (r0.id = 1 →
          (modificar_estudiante 1 ⟨"Ana B", 21⟩
            ⟨[⟨1, some "Ana", some 20⟩, ⟨2, some "Luis", some 22⟩], 3⟩ false).2.rows[i]? =
            some ⟨r0.id, some "Ana B", some 21⟩) ∧
        (r0.id ≠ 1 →
          (modificar_estudiante 1 ⟨"Ana B", 21⟩
            ⟨[⟨1, some "Ana", some 20⟩, ⟨2, some "Luis", some 22⟩], 3⟩ false).2.rows[i]? =
            some r0)) :=
  ⟨by decide, by decide,
    put_existing_replaces_fields 1 ⟨"Ana B", 21⟩
      ⟨[⟨1, some "Ana", some 20⟩, ⟨2, some "Luis", some 22⟩], 3⟩
      (by decide) (by decide)⟩

/-- Removing the rows matching an id drops exactly one row when ids are
pairwise distinct and a matching row exists. -/
lemma filter_ne_length {l : List Estudiante} {t : Int}
    (hnd : (l.map Estudiante.id).Nodup) {est : Estudiante}
    (hm : est ∈ l) (hid : est.id = t) :
    (l.filter (fun r => r.id != t)).length + 1 = l.length := by
  induction l with
  | nil => cases hm
  | cons a l ih =>
    rw [List.map_cons, List.nodup_cons] at hnd
    rcases List.mem_cons.mp hm with rfl | hm2
    · have hall : ∀ r ∈ l, r.id ≠ t := by
        intro r hr hEq
        exact hnd.1 (by rw [hid, ← hEq]; exact List.mem_map_of_mem _ hr)
      have hfeq : l.filter (fun r => r.id != t) = l := by
        apply List.filter_eq_self.mpr
        intro r hr
        simpa using hall r hr
      simp [List.filter_cons, hid, hfeq]
    · have hat : a.id ≠ t := by
        intro hEq
        exact hnd.1 (by rw [hEq, ← hid]; exact List.mem_map_of_mem _ hm2)
      have hl := ih hnd.2 hm2
      simp only [List.filter_cons, bne_iff_ne, ne_eq, hat,
        not_false_eq_true, if_pos, List.length_cons]
      omega

/-- Claim C6: DELETE answers 404 (leaving the table unchanged) when no row
matches the id; on a matching id it answers 200, removes exactly the
matching row, and a subsequent GET of the same id answers 404. -/
theorem delete_semantics (id : Int) (db : DB) (h : db.WellFormed) :
    (findRow db id = none →
      (eliminar_estudiante id db false).1.status = 404 ∧
      (eliminar_estudiante id db false).2 = db) ∧
    ∀ est, findRow db id = some est →
      (eliminar_estudiante id db false).1.status = 200 ∧
      (∀ r, r ∈ (eliminar_estudiante id db false).2.rows ↔
        r ∈ db.rows ∧ r.id ≠ id) ∧
      (eliminar_estudiante id db false).2.rows.length + 1 = db.rows.length ∧
      (get_estudiante id (eliminar_estudiante id db false).2).1.status = 404 := by
  constructor
  · intro hnone
    constructor <;> simp [eliminar_estudiante, hnone, notFoundResponse]
  · intro est hfind
    have hred : (eliminar_estudiante id db false).2 =
        ⟨db.rows.filter (fun r => r.id != id), db.nextId⟩ := by
      unfold eliminar_estudiante
      rw [hfind]
      rfl
    have hstatus : (eliminar_estudiante id db false).1.status = 200 := by
      unfold eliminar_estudiante
      rw [hfind]
      rfl
    have hmem : ∀ r, r ∈ (eliminar_estudiante id db false).2.rows ↔
        r ∈ db.rows ∧ r.id ≠ id := by
      intro r
      rw [hred]
      simp [List.mem_filter]
    have hgone : findRow (eliminar_estudiante id db false).2 id = none := by
      unfold findRow
      rw [List.find?_eq_none]
      intro r hr
      simp only [beq_iff_eq]
      exact ((hmem r).mp hr).2
    refine ⟨hstatus, hmem, ?_, ?_⟩
    · rw [hred]
      have hpm : est.id = id := by
        have := List.find?_some hfind
        simpa using this
      exact filter_ne_length h.2 (List.mem_of_find?_eq_some hfind) hpm
    · simp [get_estudiante, hgone, notFoundResponse]

/-- Witness for C6: delete of id 1 in a well-formed two-row table. -/
theorem delete_semantics_witness :
    (⟨[⟨1, some "Ana", some 20⟩, ⟨2, some "Luis", some 22⟩], 3⟩ : DB).WellFormed ∧
    ((findRow ⟨[⟨1, some "Ana", some 20⟩, ⟨2, some "Luis", some 22⟩], 3⟩ 1 = none →
      (eliminar_estudiante 1 ⟨[⟨1, some "Ana", some 20⟩, ⟨2, some "Luis", some 22⟩], 3⟩ false).1.status = 404 ∧
      (eliminar_estudiante 1 ⟨[⟨1, some "Ana", some 20⟩, ⟨2, some "Luis", some 22⟩], 3⟩ false).2 =
        ⟨[⟨1, some "Ana", some 20⟩, ⟨2, some "Luis", some 22⟩], 3⟩) ∧
    ∀ est, findRow ⟨[⟨1, some "Ana", some 20⟩, ⟨2, some "Luis", some 22⟩], 3⟩ 1 = some est →
      (eliminar_estudiante 1 ⟨[⟨1, some "Ana", some 20⟩, ⟨2, some "Luis", some 22⟩], 3⟩ false).1.status = 200 ∧
      (∀ r, r ∈ (eliminar_estudiante 1 ⟨[⟨1, some "Ana", some 20⟩, ⟨2, some "Luis", some 22⟩], 3⟩ false).2.rows ↔
        r ∈ (⟨[⟨1, some "Ana", some 20⟩, ⟨2, some "Luis", some 22⟩], 3⟩ : DB).rows ∧ r.id ≠ 1) ∧
      (eliminar_estudiante 1 ⟨[⟨1, some "Ana", some 20⟩, ⟨2, some "Luis", some 22⟩], 3⟩ false).2.rows.length + 1 =
        (⟨[⟨1, some "Ana", some 20⟩, ⟨2, some "Luis", some 22⟩], 3⟩ : DB).rows.length ∧
      (get_estudiante 1 (eliminar_estudiante 1 ⟨[⟨1, some "Ana", some 20⟩, ⟨2, some "Luis", some 22⟩], 3⟩ false).2).1.status = 404) := by
  have hw : (⟨[⟨1, some "Ana", some 20⟩, ⟨2, some "Luis", some 22⟩], 3⟩ : DB).WellFormed := by
    constructor
    · decide
    · decide
  exact ⟨hw, delete_semantics 1 ⟨[⟨1, some "Ana", some 20⟩, ⟨2, some "Luis", some 22⟩], 3⟩ hw⟩

/-- Claim C8: every table state reachable from the empty table through the
API operations has only fully populated rows: `nombre` and `edad` are
non-null in every persisted row (`id`, the primary key, is total in the
model and hence non-null by construction). -/
theorem reachable_rows_non_null (db : DB) (h : Reachable db) :
    ∀ r ∈ db.rows, r.nombre.isSome ∧ r.edad.isSome := by
  induction h with
  | empty => intro r hr; cases hr
  | @post body fault db0 hprev ih =>
    intro r hr
    cases hv : validateBody body with
    | none => exact ih r (by simpa [postEstudiantes, hv] using hr)
    | some est =>
      cases hcr : (⟨db0, [PendingOp.insert est.nombre est.edad]⟩ :
          Session).commitRaises fault with
      | true =>
        exact ih r (by simpa [postEstudiantes, hv, crear_estudiante, hcr,
          Session.rollback, Session.addOp, freshSession] using hr)
      | false =>
        have hr2 : r ∈ db0.rows ++
            [(⟨db0.nextId, some est.nombre, some est.edad⟩ : Estudiante)] := by
          simpa [postEstudiantes, hv, crear_estudiante, hcr, Session.commit,
            Session.addOp, freshSession, DB.applyOp] using hr
        rcases List.mem_append.mp hr2 with h1 | h1
        · exact ih r h1
        · simp only [List.mem_singleton] at h1
          subst h1
          exact ⟨rfl, rfl⟩
  | @put id body fault db0 hprev ih =>
    intro r hr
    cases hv : validateBody body with
    | none => exact ih r (by simpa [putEstudiante, hv] using hr)
    | some est =>
      cases hfind : findRow db0 id with
      | none =>
        exact ih r (by simpa [putEstudiante, hv, modificar_estudiante,
          hfind] using hr)
      | some est0 =>
        cases hcr : (⟨db0, [PendingOp.update id est.nombre est.edad]⟩ :
            Session).commitRaises fault with
        | true =>
          exact ih r (by simpa [putEstudiante, hv, modificar_estudiante,
            hfind, hcr, Session.rollback, Session.addOp, freshSession]
            using hr)
        | false =>
          have hr2 : r ∈ db0.rows.map (fun x =>
              if x.id = id
              then (⟨x.id, some est.nombre, some est.edad⟩ : Estudiante)
              else x) := by
            simpa [putEstudiante, hv, modificar_estudiante, hfind, hcr,
              Session.commit, Session.addOp, freshSession, DB.applyOp]
              using hr
          rcases List.mem_map.mp hr2 with ⟨x, hx, hfx⟩
          by_cases hxid : x.id = id
          · rw [← hfx]; simp [hxid]
          · rw [← hfx]; simp only [hxid, if_neg, if_false]; exact ih x hx
  | @del id fault db0 hprev ih =>
    intro r hr
    cases hfind : findRow db0 id with
    | none =>
      exact ih r (by simpa [eliminar_estudiante, hfind] using hr)
    | some est0 =>
      cases hcr : (⟨db0, [PendingOp.delete id]⟩ :
          Session).commitRaises fault with
      | true =>
        exact ih r (by simpa [eliminar_estudiante, hfind, hcr,
          Session.rollback, Session.addOp, freshSession] using hr)
      | false =>
        have hr2 : r ∈ db0.rows.filter (fun x => x.id != id) := by
          simpa [eliminar_estudiante, hfind, hcr, Session.commit,
            Session.addOp, freshSession, DB.applyOp] using hr
        exact ih r (List.mem_of_mem_filter hr2)

/-- Witness for C8: the table obtained by one POST into the empty table is
reachable, it contains the inserted row, and that row is fully
populated. -/
theorem reachable_rows_non_null_witness :
    (⟨1, some "Ana", some 20⟩ : Estudiante) ∈ ((postEstudiantes
        (Json.obj [("nombre", Json.str "Ana"), ("edad", Json.int 20)])
        ⟨[], 1⟩ false).2).rows ∧
    ((⟨1, some "Ana", some 20⟩ : Estudiante).nombre.isSome ∧
      (⟨1, some "Ana", some 20⟩ : Estudiante).edad.isSome) :=
  ⟨by decide,
    reachable_rows_non_null _
      (Reachable.post (Json.obj [("nombre", Json.str "Ana"), ("edad", Json.int 20)])
        false Reachable.empty)
      ⟨1, some "Ana", some 20⟩ (by decide)⟩

end GestionEstudiantes
